import Mathlib

/-!
Verification development for the approval-gated tool execution engines of the
`claude-coder` extension: the command execution engine
(`src/extension/src/agent/v1/tools/runners/execute-command.tool.ts`) and the
file write engine
(`src/extension/src/agent/v1/tools/runners/write-file.tool.ts`).

Strings are modelled as lists of characters (`Str`).  The asynchronous
environment (the human approval response, the terminal process events, the
race between completion and the 45 s timeout, diff-session outcomes) is
modelled as an explicit environment record consumed by a step-by-step
interpreter of each engine; the interpreter returns the ordered trace of
externally visible effects (broadcasts, diff operations, process spawn)
together with the final outcome (a returned result, or a thrown error).
-/

namespace ClaudeCoder

/-- Strings are modelled as lists of characters. -/
abbrev Str := List Char

/-- Whitespace predicate used by `trim` (models the character class of
JavaScript `String.prototype.trim`). -/
def isWS (c : Char) : Bool := c.isWhitespace

/-- JavaScript `String.prototype.trim`: drop whitespace from both ends. -/
def trim (l : Str) : Str := (((l.dropWhile isWS).reverse).dropWhile isWS).reverse

/-- JavaScript `s.split("\n")`: split into newline-separated segments.
`splitNL l` always has at least one segment, and `"".split("\n") = [""]`. -/
def splitNL : Str → List Str
  | [] => [[]]
  | c :: rest =>
    if c = '\n' then [] :: splitNL rest
    else
      match splitNL rest with
      | [] => [[c]]
      | h :: t => (c :: h) :: t

/-- JavaScript `segments.join("\n")`. -/
def joinNL (xs : List Str) : Str := List.intercalate ['\n'] xs

/-- The backtick character (written via its code point). -/
def fenceChar : Char := Char.ofNat 96

/-- Three backticks, the fenced-code delimiter tested by `preprocessContent`. -/
def fence3 : Str := [fenceChar, fenceChar, fenceChar]

/-- JavaScript `content.startsWith("\x60\x60\x60")`. -/
def startsFence (l : Str) : Bool := decide (l.take 3 = fence3)

/-- JavaScript `content.endsWith("\x60\x60\x60")`. -/
def endsFence (l : Str) : Bool := decide (l.reverse.take 3 = fence3)

/-- `content.split("\n").slice(1).join("\n").trim()` guarded by the
`startsWith` test (write-file.tool.ts lines 190-192). -/
def stripLeadFence (l : Str) : Str :=
  if startsFence l then trim (joinNL ((splitNL l).drop 1)) else l

/-- `content.split("\n").slice(0, -1).join("\n").trim()` guarded by the
`endsWith` test (write-file.tool.ts lines 193-195). -/
def stripTrailFence (l : Str) : Str :=
  if endsFence l then trim (joinNL ((splitNL l).dropLast)) else l

/-- JavaScript `s.replace(/a/g, b)` for single characters `a`, `b`. -/
def replaceChar (a b : Char) (l : Str) : Str := l.map fun c => if c = a then b else c

/-- `WriteFileTool.preprocessContent` (write-file.tool.ts lines 188-197),
translated literally: trim, strip a leading fence line, strip a trailing
fence line, then the three `replace` calls of line 196.  Note that line 196
of the source reads `.replace(/>/g, ">").replace(/</g, "<").replace(/"/g, '"')`:
each replacement substitutes a character for itself. -/
def preprocessContent (c : Str) : Str :=
  replaceChar '"' '"' (replaceChar '<' '<' (replaceChar '>' '>'
    (stripTrailFence (stripLeadFence (trim c)))))

/-! ### Basic lemmas about `trim` -/

theorem dropWhile_head_not {p : Char → Bool} :
    ∀ {l : Str} {a : Char}, (l.dropWhile p).head? = some a → p a = false := by
  intro l
  induction l with
  | nil => intro a h; simp [List.dropWhile] at h
  | cons b t ih =>
    intro a h
    by_cases hb : p b
    · rw [List.dropWhile_cons, if_pos hb] at h
      exact ih h
    · rw [List.dropWhile_cons, if_neg hb] at h
      simp at h
      rw [← h]
      simp [hb]

theorem dropWhile_eq_self_of_head {p : Char → Bool} {l : Str}
    (h : ∀ a : Char, l.head? = some a → p a = false) : l.dropWhile p = l := by
  cases l with
  | nil => simp
  | cons b t =>
    have hb : p b = false := h b rfl
    rw [List.dropWhile_cons, if_neg (by simp [hb])]

theorem dropWhile_dropWhile {p : Char → Bool} (l : Str) :
    (l.dropWhile p).dropWhile p = l.dropWhile p :=
  dropWhile_eq_self_of_head fun _ ha => dropWhile_head_not ha

theorem getLast?_of_suffix {z y : Str} (h : z <:+ y) (hz : z ≠ []) :
    y.getLast? = z.getLast? := by
  obtain ⟨t, rfl⟩ := h
  rw [List.getLast?_append]
  cases hzl : z.getLast? with
  | none => exact absurd (List.getLast?_eq_none_iff.mp hzl) hz
  | some a => rfl

theorem trim_head_not {l : Str} {a : Char} (h : (trim l).head? = some a) :
    isWS a = false := by
  unfold trim at h
  rw [List.head?_reverse] at h
  have hne : ((l.dropWhile isWS).reverse).dropWhile isWS ≠ [] := by
    intro hnil
    rw [hnil] at h
    simp at h
  have hsuf := List.dropWhile_suffix (l := (l.dropWhile isWS).reverse) isWS
  rw [← getLast?_of_suffix hsuf hne, List.getLast?_reverse] at h
  exact dropWhile_head_not h

theorem trim_trim (l : Str) : trim (trim l) = trim l := by
  have h1 : (trim l).dropWhile isWS = trim l :=
    dropWhile_eq_self_of_head fun _ ha => trim_head_not ha
  show (((trim l).dropWhile isWS).reverse.dropWhile isWS).reverse = trim l
  rw [h1]
  show ((((((l.dropWhile isWS).reverse).dropWhile isWS).reverse).reverse).dropWhile isWS).reverse
      = trim l
  rw [List.reverse_reverse, dropWhile_dropWhile]
  rfl

/-! ### Lemmas about `preprocessContent` -/

theorem replaceChar_self (a : Char) (l : Str) : replaceChar a a l = l := by
  unfold replaceChar
  have h : ∀ c : Char, (if c = a then a else c) = c := by
    intro c
    by_cases hc : c = a <;> simp [hc]
  simp [h]

theorem preprocessContent_eq (c : Str) :
    preprocessContent c = stripTrailFence (stripLeadFence (trim c)) := by
  unfold preprocessContent
  rw [replaceChar_self, replaceChar_self, replaceChar_self]

/-- Every value of `preprocessContent` is already trimmed. -/
theorem trim_preprocessContent (c : Str) :
    trim (preprocessContent c) = preprocessContent c := by
  rw [preprocessContent_eq]
  unfold stripTrailFence stripLeadFence
  by_cases h1 : startsFence (trim c)
  · rw [if_pos h1]
    by_cases h2 : endsFence (trim (joinNL ((splitNL (trim c)).drop 1)))
    · rw [if_pos h2, trim_trim]
    · rw [if_neg h2, trim_trim]
  · rw [if_neg h1]
    by_cases h2 : endsFence (trim c)
    · rw [if_pos h2, trim_trim]
    · rw [if_neg h2, trim_trim]

/-! ### The command execution engine (execute-command.tool.ts)

The asynchronous environment of one invocation — the operator's response to
the approval `ask`, the session flags, the terminal events and the winner of
the completion-vs-timeout race — is modelled by `CmdEnv`.  The interpreter
`execCommand` follows the control flow of `ExecuteCommandTool.execute` /
`executeShellTerminal` and returns the ordered trace of externally visible
effects together with the outcome.  Payload fields that no claim inspects
(`command`, `ts`, `isSubMsg`, `earlyExit`) are omitted from the event type. -/

/-- The three possible responses of the approval channel (§4.1). -/
inductive AskResponse where
  | yesButtonTapped
  | noButtonTapped
  | messageResponse
deriving DecidableEq, Repr

/-- The `approvalState` values occurring in broadcast payloads. -/
inductive ApprovalState where
  | pending
  | loading
  | approved
  | rejected
  | error
deriving DecidableEq, Repr

/-- Terminal approval states per the spec (§3): `rejected`, `approved`, `error`. -/
def isTerminal : ApprovalState → Bool
  | ApprovalState.rejected => true
  | ApprovalState.approved => true
  | ApprovalState.error => true
  | _ => false

/-- Externally visible effects of one command invocation, in order. -/
inductive CmdEvt where
  | sayError                 -- `say("error", ...)` on the missing-parameter path
  | askPending               -- the blocking `ask` with `approvalState: "pending"`
  | update (s : ApprovalState) (output : Option Str) (feedback : Option Str)
  | sayUserFeedback (text : Str) (images : List Nat)
  | spawn                    -- `terminalManager.runCommand(...)`
  | sayShellWarning          -- `say("shell_integration_warning")`
deriving DecidableEq, Repr

/-- Modelled from the spec: the Result Formatter (`formatToolDenied`,
`formatToolDeniedFeedback`, `formatToolError`, `formatToolResponseWithImages`
live in `base-agent.tool.ts`, which is not under src/) is an "external
collaborator turning final text (+ optional images) into the tool-response
representation" (§2).  Each formatter is modelled as a tagged result carrying
exactly what the engine passes to it. -/
inductive CmdResult where
  | missingParam                                       -- the raw validation-error string (line 41)
  | denied                                             -- `formatToolDenied()`
  | deniedWithFeedback (text : Option Str) (images : List Nat)
  | success (text : Str) (images : List Nat)           -- `formatToolResponseWithImages`
  | errorResult (text : Str)                           -- `formatToolError(...)`
deriving DecidableEq, Repr

/-- Outcome of one invocation: a returned result, or an uncaught exception
propagating above the engine boundary. -/
inductive CmdOutcome where
  | ret (r : CmdResult)
  | threw (msg : Str)
deriving DecidableEq, Repr

/-- A fault arising while the engine awaits the completion-vs-timeout race:
either the one-shot `no_shell_integration` capability signal (whose handler
at lines 184-189 says a warning and throws inside an async event callback,
so the throw rejects only the handler's own promise and never reaches the
try/catch of lines 191-275), or any other exception raised in the awaited
race phase, which does reach the `catch` of lines 257-275. -/
inductive RaceFault where
  | none
  | noShellIntegration
  | other (msg : Str)
deriving DecidableEq, Repr

/-- Environment of one command invocation. -/
structure CmdEnv where
  response : AskResponse            -- operator response to the approval ask
  text : Option Str                 -- operator free text, if any
  images : List Nat                 -- operator images (opaque ids)
  alwaysAllowWriteOnly : Bool       -- the "auto-approve write-only" mode
  managerAdvanced : Bool            -- `terminalManager instanceof AdvancedTerminalManager`
  processCreated : Bool             -- `runCommand` returned a process
  lines : List Str                  -- `line` events delivered, in emission order
  fault : RaceFault                 -- exception during the awaited race phase
  completed : Bool                  -- `completed` fired before the 45 s timeout
  returnEmptyStringOnSuccess : Bool -- flag suppressing textual success output
deriving DecidableEq, Repr

/-- The `line` event handler (lines 143-169): each non-empty line is appended
to the output buffer followed by a newline, and the cumulative buffer is
broadcast with `approvalState: "loading"` (`didContinue` is never assigned in
the source, so the broadcast guard `!didContinue || ...` is always true).
Returns the final buffer and the trace of broadcasts. -/
def runLines (buf : Str) : List Str → Str × List CmdEvt
  | [] => (buf, [])
  | l :: ls =>
    if l = [] then runLines buf ls
    else
      let buf2 := buf ++ l ++ ['\n']
      let r := runLines buf2 ls
      (r.1, CmdEvt.update ApprovalState.loading (some buf2) none :: r.2)

/-- Message of the `no_shell_integration` handler's `Error` (lines 186-188). -/
def noShellMsg : Str :=
  "No shell integration, cannot run commands please enable shell integration otherwise commands will not run.".data

/-- Message of the throw at line 54. -/
def advTermMsg : Str := "AdvancedTerminalManager is not available".data

/-- Message of the throw at line 136. -/
def procFailMsg : Str := "Failed to create terminal process after retries".data

/-- Prefix of the error result text built at line 274. -/
def errCmdPre : Str := "Error executing command:\n".data

/-- Default text of the `say("user_feedback", ...)` call at line 105. -/
def deniedDefaultMsg : Str := "The user denied this operation.".data

/-- The final result text assembled at lines 221-254: a completion sentence,
then an output section embedding the buffer (or `"No output"` when the
buffer is empty). -/
def cmdFinalText : Bool → Str → Str
  | true, buf =>
    "Command execution completed successfully.".data ++
      "\n\nOutput:\n<output>\n".data ++
      (if buf = [] then "No output".data else buf) ++ "\n</output>".data
  | false, buf =>
    "The command has been executed.".data ++
      "\n\nPartial output available:\n<output>\n".data ++
      (if buf = [] then "No output".data else buf) ++ "\n</output>".data

/-- `ExecuteCommandTool.executeShellTerminal` (lines 51-276). -/
def execShell (env : CmdEnv) : List CmdEvt × CmdOutcome :=
  -- line 53: the manager check throws before any try/catch
  if env.managerAdvanced = false then ([], CmdOutcome.threw advTermMsg)
  else if env.response = AskResponse.yesButtonTapped then
    -- approved: loading broadcast, terminal acquisition, spawn (lines 112-133)
    let tr0 := [CmdEvt.askPending,
                CmdEvt.update ApprovalState.loading none none, CmdEvt.spawn]
    -- line 135: a null process throws outside the try/catch
    if env.processCreated = false then (tr0, CmdOutcome.threw procFailMsg)
    else
      let s := runLines [] env.lines
      match env.fault with
      | RaceFault.noShellIntegration =>
        -- lines 184-189: the handler says the warning, but its throw occurs
        -- inside an async event callback and never reaches the try/catch of
        -- lines 191-275 (it becomes an unhandled rejection); the engine
        -- proceeds through the race and finalizes normally (lines 205-256)
        let tr1 := tr0 ++ s.2 ++ [CmdEvt.sayShellWarning,
                    CmdEvt.update ApprovalState.approved (some s.1) none]
        if env.returnEmptyStringOnSuccess then
          (tr1, CmdOutcome.ret (CmdResult.success [] []))
        else
          (tr1, CmdOutcome.ret (CmdResult.success (cmdFinalText env.completed s.1) []))
      | RaceFault.other m =>
        (tr0 ++ s.2 ++ [CmdEvt.update ApprovalState.error (some m) none],
         CmdOutcome.ret (CmdResult.errorResult (errCmdPre ++ m)))
      | RaceFault.none =>
        -- lines 205-256; `userFeedback` is declared (line 139) but never
        -- assigned, so the feedback block of lines 226-244 never runs
        let tr1 := tr0 ++ s.2 ++ [CmdEvt.update ApprovalState.approved (some s.1) none]
        if env.returnEmptyStringOnSuccess then
          (tr1, CmdOutcome.ret (CmdResult.success [] []))
        else
          (tr1, CmdOutcome.ret (CmdResult.success (cmdFinalText env.completed s.1) []))
  else
    -- rejection (lines 75-109)
    let tr1 := [CmdEvt.askPending, CmdEvt.update ApprovalState.rejected none none]
    if env.response = AskResponse.messageResponse ∧ env.alwaysAllowWriteOnly = false then
      (tr1 ++ [CmdEvt.update ApprovalState.rejected none env.text,
               CmdEvt.sayUserFeedback (env.text.getD deniedDefaultMsg) env.images],
       CmdOutcome.ret (CmdResult.deniedWithFeedback env.text env.images))
    else (tr1, CmdOutcome.ret CmdResult.denied)

/-- `ExecuteCommandTool.execute` (lines 32-45): validate the command, then
run `executeShellTerminal`. -/
def execCommand (cmd : Str) (env : CmdEnv) : List CmdEvt × CmdOutcome :=
  if trim cmd = [] then ([CmdEvt.sayError], CmdOutcome.ret CmdResult.missingParam)
  else execShell env

/-- The sequence of `approvalState` values broadcast through `updateAsk`. -/
def updateStates (tr : List CmdEvt) : List ApprovalState :=
  tr.filterMap fun e =>
    match e with
    | CmdEvt.update s _ _ => some s
    | _ => none

/-! ### Substring search -/

/-- Decidable substring test: `hasSub pat s` holds iff `pat` occurs
contiguously inside `s`. -/
def hasSub (pat s : Str) : Bool :=
  (List.range (s.length + 1)).any fun i => decide ((s.drop i).take pat.length = pat)

theorem getLast?_cons_app {α : Type} (x : α) (A : List α) (e : α) :
    (x :: (A ++ [e])).getLast? = some e := by
  rw [← List.cons_append]
  exact List.getLast?_concat _

theorem hasSub_append (a pat b : Str) : hasSub pat (a ++ (pat ++ b)) = true := by
  unfold hasSub
  rw [List.any_eq_true]
  refine ⟨a.length, ?_, ?_⟩
  · rw [List.mem_range, List.length_append, List.length_append]
    omega
  · rw [List.drop_left, List.take_left]
    simp

theorem hasSub_nil (s : Str) : hasSub [] s = true := by
  unfold hasSub
  rw [List.any_eq_true]
  exact ⟨0, by simp, by simp⟩

/-! ### Lemmas about the streaming buffer and the final result text -/

/-- The concatenation, in order, of every non-empty line payload followed by
a newline. -/
def nonEmptyJoin (ls : List Str) : Str :=
  ((ls.filter fun l => decide (l ≠ [])).map fun l => l ++ ['\n']).flatten

theorem runLines_fst : ∀ (ls : List Str) (buf : Str),
    (runLines buf ls).1 = buf ++ nonEmptyJoin ls := by
  intro ls
  induction ls with
  | nil => intro buf; simp [runLines, nonEmptyJoin]
  | cons l ls ih =>
    intro buf
    by_cases h : l = []
    · subst h
      have h1 : (runLines buf ([] :: ls)).1 = (runLines buf ls).1 := by
        simp [runLines]
      rw [h1, ih]
      simp [nonEmptyJoin]
    · have h1 : (runLines buf (l :: ls)).1 = (runLines (buf ++ l ++ ['\n']) ls).1 := by
        simp [runLines, h]
      rw [h1, ih]
      simp [nonEmptyJoin, h, List.append_assoc]

theorem runLines_updates : ∀ (ls : List Str) (buf : Str) (s : ApprovalState),
    s ∈ updateStates (runLines buf ls).2 → s = ApprovalState.loading := by
  intro ls
  induction ls with
  | nil => intro buf s h; simp [runLines, updateStates] at h
  | cons l ls ih =>
    intro buf s h
    by_cases hl : l = []
    · subst hl
      have h1 : (runLines buf ([] :: ls)).2 = (runLines buf ls).2 := by
        simp [runLines]
      rw [h1] at h
      exact ih _ _ h
    · have h1 : (runLines buf (l :: ls)).2 =
          CmdEvt.update ApprovalState.loading (some (buf ++ l ++ ['\n'])) none ::
            (runLines (buf ++ l ++ ['\n']) ls).2 := by
        simp [runLines, hl]
      rw [h1] at h
      have h2 : updateStates
          (CmdEvt.update ApprovalState.loading (some (buf ++ l ++ ['\n'])) none ::
            (runLines (buf ++ l ++ ['\n']) ls).2) =
          ApprovalState.loading :: updateStates (runLines (buf ++ l ++ ['\n']) ls).2 := by
        simp [updateStates]
      rw [h2] at h
      rcases List.mem_cons.mp h with h | h
      · exact h
      · exact ih _ _ h

theorem hasSub_completed (buf : Str) :
    hasSub ("completed successfully".data) (cmdFinalText true buf) = true := by
  have he : cmdFinalText true buf =
      "Command execution ".data ++ ("completed successfully".data ++
        (".".data ++ ("\n\nOutput:\n<output>\n".data ++
          ((if buf = [] then "No output".data else buf) ++ "\n</output>".data)))) := by
    simp [cmdFinalText]
  rw [he]
  exact hasSub_append _ _ _

theorem hasSub_partial (buf : Str) :
    hasSub ("Partial output available".data) (cmdFinalText false buf) = true := by
  have he : cmdFinalText false buf =
      ("The command has been executed.".data ++ "\n\n".data) ++
        ("Partial output available".data ++ (":\n<output>\n".data ++
          ((if buf = [] then "No output".data else buf) ++ "\n</output>".data))) := by
    simp [cmdFinalText]
  rw [he]
  exact hasSub_append _ _ _

theorem hasSub_output (c : Bool) (buf : Str) :
    hasSub buf (cmdFinalText c buf) = true := by
  by_cases h : buf = []
  · subst h
    exact hasSub_nil _
  · cases c with
    | false =>
      have he : cmdFinalText false buf =
          ("The command has been executed.".data ++
            "\n\nPartial output available:\n<output>\n".data) ++
            (buf ++ "\n</output>".data) := by
        simp only [cmdFinalText]
        rw [if_neg h]
        simp [List.append_assoc]
      rw [he]
      exact hasSub_append _ _ _
    | true =>
      have he : cmdFinalText true buf =
          ("Command execution completed successfully.".data ++
            "\n\nOutput:\n<output>\n".data) ++
            (buf ++ "\n</output>".data) := by
        simp only [cmdFinalText]
        rw [if_neg h]
        simp [List.append_assoc]
      rw [he]
      exact hasSub_append _ _ _

/-! ### Concrete command environments used by counterexamples and witnesses -/

/-- A fully approved, completed invocation with one output line `"hi"`. -/
def envApproved : CmdEnv :=
  { response := AskResponse.yesButtonTapped
    text := none
    images := []
    alwaysAllowWriteOnly := false
    managerAdvanced := true
    processCreated := true
    lines := ["hi".data]
    fault := RaceFault.none
    completed := true
    returnEmptyStringOnSuccess := false }

/-- Approved and completed, but flagged to return an empty string on success. -/
def envSuppressed : CmdEnv := { envApproved with returnEmptyStringOnSuccess := true }

/-- Rejected with free-text operator feedback and one image. -/
def envRejected : CmdEnv :=
  { envApproved with
    response := AskResponse.messageResponse
    text := some ("use a dry run first".data)
    images := [7] }

/-- No `AdvancedTerminalManager` available. -/
def envNoManager : CmdEnv := { envApproved with managerAdvanced := false }

/-- An exception is raised during the awaited race phase. -/
def envRaceFault : CmdEnv := { envApproved with fault := RaceFault.other ("boom".data) }

/-- The `no_shell_integration` signal fires; the process never completes. -/
def envNoShell : CmdEnv :=
  { envApproved with fault := RaceFault.noShellIntegration, completed := false }

/-! ### Claims C2, C4, C5, C7 about the command engine -/

/-- C2 (amended): for an approved invocation that is not flagged to return an
empty string on success, the result is the success text for the final buffer:
on natural completion it contains "completed successfully", on timeout it
contains "Partial output available", and in both cases the buffered output is
embedded verbatim; the outcome is a success result, not an error. -/
theorem execCommand_result_text (cmd : Str) (env : CmdEnv)
    (h0 : trim cmd ≠ []) (h1 : env.managerAdvanced = true)
    (h2 : env.response = AskResponse.yesButtonTapped)
    (h3 : env.processCreated = true) (h4 : env.fault = RaceFault.none)
    (h5 : env.returnEmptyStringOnSuccess = false) :
    (execCommand cmd env).2 = CmdOutcome.ret (CmdResult.success
        (cmdFinalText env.completed (runLines [] env.lines).1) []) ∧
    (env.completed = true → hasSub ("completed successfully".data)
        (cmdFinalText env.completed (runLines [] env.lines).1) = true) ∧
    (env.completed = false → hasSub ("Partial output available".data)
        (cmdFinalText env.completed (runLines [] env.lines).1) = true) ∧
    hasSub (runLines [] env.lines).1
        (cmdFinalText env.completed (runLines [] env.lines).1) = true := by
  refine ⟨?_, ?_, ?_, ?_⟩
  · simp [execCommand, execShell, h0, h1, h2, h3, h4, h5]
  · intro hc
    rw [hc]
    exact hasSub_completed _
  · intro hc
    rw [hc]
    exact hasSub_partial _
  · exact hasSub_output _ _

/-- Witness for the amended C2 at the concrete invocation
`execCommand "echo hi" envApproved`. -/
theorem execCommand_result_text_witness :
    trim ("echo hi".data) ≠ [] ∧
    envApproved.managerAdvanced = true ∧
    envApproved.response = AskResponse.yesButtonTapped ∧
    envApproved.processCreated = true ∧
    envApproved.fault = RaceFault.none ∧
    envApproved.returnEmptyStringOnSuccess = false ∧
    ((execCommand ("echo hi".data) envApproved).2 = CmdOutcome.ret (CmdResult.success
        (cmdFinalText envApproved.completed (runLines [] envApproved.lines).1) []) ∧
     (envApproved.completed = true → hasSub ("completed successfully".data)
        (cmdFinalText envApproved.completed (runLines [] envApproved.lines).1) = true) ∧
     (envApproved.completed = false → hasSub ("Partial output available".data)
        (cmdFinalText envApproved.completed (runLines [] envApproved.lines).1) = true) ∧
     hasSub (runLines [] envApproved.lines).1
        (cmdFinalText envApproved.completed (runLines [] envApproved.lines).1) = true) :=
  ⟨by decide, rfl, rfl, rfl, rfl, rfl,
    execCommand_result_text ("echo hi".data) envApproved (by decide) rfl rfl rfl rfl rfl⟩

/-- C2 counterexample: an approved invocation whose process completes before
the timeout, but which carries the `returnEmptyStringOnSuccess` flag, returns
the empty result text: it contains neither "completed successfully" nor the
buffered output `"hi\n"`. -/
theorem execCommand_empty_success_counterexample :
    (execCommand ("echo hi".data) envSuppressed).2 =
      CmdOutcome.ret (CmdResult.success [] []) ∧
    hasSub ("completed successfully".data) [] = false ∧
    hasSub ("hi\n".data) [] = false := by
  refine ⟨by decide, by decide, by decide⟩

/-- C4 counterexample: the `line` handler drops empty line payloads, so the
buffer after the events `"a"`, `""`, `"b"` is `"a\nb\n"`, not the
concatenation of every payload followed by a newline (`"a\n\nb\n"`). -/
theorem runLines_empty_line_counterexample :
    (runLines [] [['a'], [], ['b']]).1 ≠
      (([['a'], [], ['b']] : List Str).map fun l => l ++ ['\n']).flatten := by decide

/-- C4 (amended): at every point of the stream (every prefix of the line
events), the output buffer equals the concatenation, in emission order, of
every non-empty line payload received so far each followed by a newline, and
the buffer is append-only: the buffer at any earlier point is a prefix of the
final buffer. -/
theorem runLines_buffer (ls pre : List Str) (h : pre <+: ls) :
    (runLines [] pre).1 = nonEmptyJoin pre ∧
    (runLines [] pre).1 <+: (runLines [] ls).1 := by
  obtain ⟨t, rfl⟩ := h
  constructor
  · rw [runLines_fst]
    simp
  · rw [runLines_fst, runLines_fst]
    refine ⟨nonEmptyJoin t, ?_⟩
    simp [nonEmptyJoin]

/-- Witness for the amended C4 at the events `["hi", "yo"]` and the prefix
`["hi"]`. -/
theorem runLines_buffer_witness :
    (["hi".data] : List Str) <+: ["hi".data, "yo".data] ∧
    ((runLines [] ["hi".data]).1 = nonEmptyJoin ["hi".data] ∧
     (runLines [] ["hi".data]).1 <+: (runLines [] ["hi".data, "yo".data]).1) :=
  ⟨⟨["yo".data], rfl⟩, runLines_buffer ["hi".data, "yo".data] ["hi".data] ⟨["yo".data], rfl⟩⟩

/-- C5 (confirmed): on any non-`yesButtonTapped` response the process is
never spawned and a rejected broadcast is sent; when the response is
`messageResponse` and auto-approve-write-only mode is off, a second rejected
broadcast carries the feedback, the feedback is surfaced via `say`, and the
denial result carries the operator's text and images; otherwise the plain
denial result is returned. -/
theorem execCommand_rejected (cmd : Str) (env : CmdEnv)
    (h0 : trim cmd ≠ []) (h1 : env.managerAdvanced = true)
    (h2 : env.response ≠ AskResponse.yesButtonTapped) :
    CmdEvt.spawn ∉ (execCommand cmd env).1 ∧
    CmdEvt.update ApprovalState.rejected none none ∈ (execCommand cmd env).1 ∧
    (env.response = AskResponse.messageResponse ∧ env.alwaysAllowWriteOnly = false →
      CmdEvt.update ApprovalState.rejected none env.text ∈ (execCommand cmd env).1 ∧
      CmdEvt.sayUserFeedback (env.text.getD deniedDefaultMsg) env.images ∈
        (execCommand cmd env).1 ∧
      (execCommand cmd env).2 =
        CmdOutcome.ret (CmdResult.deniedWithFeedback env.text env.images)) ∧
    (¬(env.response = AskResponse.messageResponse ∧ env.alwaysAllowWriteOnly = false) →
      (execCommand cmd env).2 = CmdOutcome.ret CmdResult.denied) := by
  by_cases hc : env.response = AskResponse.messageResponse ∧ env.alwaysAllowWriteOnly = false
  · simp [execCommand, execShell, h0, h1, h2, hc]
  · simp [execCommand, execShell, h0, h1, h2, hc]

/-- Witness for C5 at `execCommand "rm -rf build" envRejected`. -/
theorem execCommand_rejected_witness :
    trim ("rm -rf build".data) ≠ [] ∧
    envRejected.managerAdvanced = true ∧
    envRejected.response ≠ AskResponse.yesButtonTapped ∧
    (CmdEvt.spawn ∉ (execCommand ("rm -rf build".data) envRejected).1 ∧
     CmdEvt.update ApprovalState.rejected none none ∈
       (execCommand ("rm -rf build".data) envRejected).1 ∧
     (envRejected.response = AskResponse.messageResponse ∧
        envRejected.alwaysAllowWriteOnly = false →
       CmdEvt.update ApprovalState.rejected none envRejected.text ∈
         (execCommand ("rm -rf build".data) envRejected).1 ∧
       CmdEvt.sayUserFeedback (envRejected.text.getD deniedDefaultMsg) envRejected.images ∈
         (execCommand ("rm -rf build".data) envRejected).1 ∧
       (execCommand ("rm -rf build".data) envRejected).2 =
         CmdOutcome.ret (CmdResult.deniedWithFeedback envRejected.text envRejected.images)) ∧
     (¬(envRejected.response = AskResponse.messageResponse ∧
          envRejected.alwaysAllowWriteOnly = false) →
       (execCommand ("rm -rf build".data) envRejected).2 =
         CmdOutcome.ret CmdResult.denied)) :=
  ⟨by decide, rfl, by decide,
    execCommand_rejected ("rm -rf build".data) envRejected (by decide) rfl (by decide)⟩

/-- C7 counterexample: when no `AdvancedTerminalManager` is available the
engine throws above its boundary (the throw at line 53 precedes the
try/catch), returning no textual result and broadcasting no error state. -/
theorem execCommand_spawn_throw_counterexample :
    (execCommand ("ls".data) envNoManager).2 = CmdOutcome.threw advTermMsg ∧
    updateStates (execCommand ("ls".data) envNoManager).1 = [] := by
  refine ⟨by decide, by decide⟩

theorem state_mem_updateStates {s : ApprovalState} {o fb : Option Str}
    {tr : List CmdEvt} (h : CmdEvt.update s o fb ∈ tr) : s ∈ updateStates tr := by
  unfold updateStates
  exact List.mem_filterMap.mpr ⟨CmdEvt.update s o fb, h, rfl⟩

/-- C7 (amended): once the process has been created, any exception raised in
the engine's awaited race phase is caught: the error message is broadcast as
output with `approvalState=error` as the final broadcast, and a textual
error result is returned.  The `no_shell_integration` signal, however, is
not caught: its handler says the shell-integration warning, but the throw
occurs inside an async event callback and never reaches the try/catch, so no
error broadcast is ever sent and the engine finalizes normally with a final
approved broadcast and a success result.  (Exceptions raised before process
creation propagate uncaught above the engine boundary.) -/
theorem execCommand_race_fault_caught (cmd : Str) (env : CmdEnv)
    (h0 : trim cmd ≠ []) (h1 : env.managerAdvanced = true)
    (h2 : env.response = AskResponse.yesButtonTapped)
    (h3 : env.processCreated = true) :
    (∀ m, env.fault = RaceFault.other m →
      (execCommand cmd env).2 = CmdOutcome.ret (CmdResult.errorResult (errCmdPre ++ m)) ∧
      CmdEvt.update ApprovalState.error (some m) none ∈ (execCommand cmd env).1 ∧
      (updateStates (execCommand cmd env).1).getLast? = some ApprovalState.error) ∧
    (env.fault = RaceFault.noShellIntegration →
      CmdEvt.sayShellWarning ∈ (execCommand cmd env).1 ∧
      (∀ o fb, CmdEvt.update ApprovalState.error o fb ∉ (execCommand cmd env).1) ∧
      (updateStates (execCommand cmd env).1).getLast? = some ApprovalState.approved ∧
      (execCommand cmd env).2 = CmdOutcome.ret (CmdResult.success
        (if env.returnEmptyStringOnSuccess then []
         else cmdFinalText env.completed (runLines [] env.lines).1) [])) := by
  constructor
  · intro m hm
    refine ⟨?_, ?_, ?_⟩
    · simp [execCommand, execShell, h0, h1, h2, h3, hm]
    · simp [execCommand, execShell, h0, h1, h2, h3, hm]
    · simp [execCommand, execShell, h0, h1, h2, h3, hm, updateStates, getLast?_cons_app]
  · intro hm
    have hst : updateStates (execCommand cmd env).1 =
        ApprovalState.loading ::
          (updateStates (runLines [] env.lines).2 ++ [ApprovalState.approved]) := by
      cases hres : env.returnEmptyStringOnSuccess with
      | false => simp [execCommand, execShell, h0, h1, h2, h3, hm, hres, updateStates]
      | true => simp [execCommand, execShell, h0, h1, h2, h3, hm, hres, updateStates]
    refine ⟨?_, ?_, ?_, ?_⟩
    · cases hres : env.returnEmptyStringOnSuccess with
      | false => simp [execCommand, execShell, h0, h1, h2, h3, hm, hres]
      | true => simp [execCommand, execShell, h0, h1, h2, h3, hm, hres]
    · intro o fb hmem
      have herr : ApprovalState.error ∈ updateStates (execCommand cmd env).1 :=
        state_mem_updateStates hmem
      rw [hst] at herr
      rcases List.mem_cons.mp herr with h | h
      · simp at h
      · rcases List.mem_append.mp h with h | h
        · have hl := runLines_updates _ _ _ h
          simp at hl
        · have hl := List.mem_singleton.mp h
          simp at hl
    · rw [hst]
      exact getLast?_cons_app _ _ _
    · cases hres : env.returnEmptyStringOnSuccess with
      | false => simp [execCommand, execShell, h0, h1, h2, h3, hm, hres]
      | true => simp [execCommand, execShell, h0, h1, h2, h3, hm, hres]

/-- Witness for the amended C7 at `execCommand "ls" envRaceFault` (a caught
race-phase exception) and `execCommand "ls" envNoShell` (the uncaught
`no_shell_integration` signal). -/
theorem execCommand_race_fault_caught_witness :
    trim ("ls".data) ≠ [] ∧
    envRaceFault.managerAdvanced = true ∧
    envRaceFault.response = AskResponse.yesButtonTapped ∧
    envRaceFault.processCreated = true ∧
    envRaceFault.fault = RaceFault.other ("boom".data) ∧
    ((execCommand ("ls".data) envRaceFault).2 =
       CmdOutcome.ret (CmdResult.errorResult (errCmdPre ++ "boom".data)) ∧
     CmdEvt.update ApprovalState.error (some ("boom".data)) none ∈
       (execCommand ("ls".data) envRaceFault).1 ∧
     (updateStates (execCommand ("ls".data) envRaceFault).1).getLast? =
       some ApprovalState.error) ∧
    envNoShell.fault = RaceFault.noShellIntegration ∧
    (CmdEvt.sayShellWarning ∈ (execCommand ("ls".data) envNoShell).1 ∧
     (∀ o fb, CmdEvt.update ApprovalState.error o fb ∉
        (execCommand ("ls".data) envNoShell).1) ∧
     (updateStates (execCommand ("ls".data) envNoShell).1).getLast? =
       some ApprovalState.approved ∧
     (execCommand ("ls".data) envNoShell).2 = CmdOutcome.ret (CmdResult.success
       (if envNoShell.returnEmptyStringOnSuccess then []
        else cmdFinalText envNoShell.completed (runLines [] envNoShell.lines).1) [])) :=
  ⟨by decide, rfl, rfl, rfl, rfl,
    (execCommand_race_fault_caught ("ls".data) envRaceFault
      (by decide) rfl rfl rfl).1 ("boom".data) rfl,
    rfl,
    (execCommand_race_fault_caught ("ls".data) envNoShell
      (by decide) rfl rfl rfl).2 rfl⟩

/-! ### The file write engine (write-file.tool.ts)

`WriteEnv` models the environment of one file-write invocation: the operator
response to the approval ask, the pre-existence of the target file, the
`userEdits` returned by the Diff Session on save, and possible exceptions
raised by the external diff surface during preview or save.  The interpreter
`writeFile` follows `WriteFileTool.processFileWrite` and returns the trace of
externally visible effects and the formatted result. -/

/-- Externally visible effects of one file-write invocation, in order. -/
inductive WEvt where
  | diffOpen (path : Str)                  -- `diffViewProvider.open`
  | diffUpdate (content : Str) (isFinal : Bool)  -- `diffViewProvider.update`
  | diffRevert                             -- `diffViewProvider.revertChanges`
  | diffSave                               -- `diffViewProvider.saveChanges`
  | askPending (content : Str) (path : Str)      -- the blocking approval ask
  | update (s : ApprovalState) (content : Str) (feedback : Option Str)
  | sayUserFeedback (text : Str) (images : List Nat)
  | sayDiff (tool : Str) (path : Str) (diff : Str)  -- `say("user_feedback_diff", ...)`
deriving DecidableEq, Repr

/-- Modelled from the spec: `formatToolResponse` (in `utils`, not under src/)
is the Result Formatter, an "external collaborator turning final text
(+ optional images) into the tool-response representation" (§2); modelled as
the pair of the text and images passed to it. -/
structure WResult where
  text : Str
  images : List Nat
deriving DecidableEq, Repr

/-- Environment of one file-write invocation. -/
structure WriteEnv where
  response : AskResponse       -- operator response to the approval ask
  text : Option Str            -- operator free text, if any
  images : List Nat            -- operator images (opaque ids)
  fileExists : Bool            -- a file already existed at the target path
  userEdits : Option Str       -- `userEdits` returned by `saveChanges`
  previewFault : Option Str    -- exception from `open`/`update` (preview)
  saveFault : Option Str       -- exception from `saveChanges`
deriving DecidableEq, Repr

/-- Modelled from the spec: `String.prototype.toPosix` and `getReadablePath`
are path-normalization utilities outside src/ (path normalization is OUT OF
SCOPE per §1, consumed through a narrow read-only interface); modelled as the
identity, which no claim depends on. -/
def toPosix (p : Str) : Str := p

/-- The fixed cancellation phrase of line 115. -/
def wCancelMsg : Str := "Write operation cancelled by user.".data

/-- Prefix of the error result text of lines 159-161. -/
def wErrPre : Str := "Write to File Error With:".data

/-- Message of the validation throw at line 74. -/
def wMissingMsg : Str := "Missing required parameters \x27path\x27 or \x27content\x27".data

/-- `tool` tag of the structured notification for an existing file (line 144). -/
def editedExistingFile : Str := "editedExistingFile".data

/-- `tool` tag of the structured notification for a new file (line 144). -/
def newFileCreated : Str := "newFileCreated".data

/-- The result text of lines 149-151, quoting the user edits. -/
def userEditsText (ue relPath : Str) : Str :=
  "The user made the following updates to your content:\n\n".data ++ ue ++
    "\n\nThe updated content has been successfully saved to ".data ++ toPosix relPath ++
    ". (Note: you don\x27t need to re-write the file with these changes.)".data

/-- The result text of lines 154-156. -/
def savedText (relPath : Str) : Str :=
  "The content was successfully saved to ".data ++ toPosix relPath ++
    ". Do not read the file again unless you forgot the content.".data

/-- `WriteFileTool.processFileWrite` (write-file.tool.ts lines 69-166),
together with `showChangesInDiffView` (lines 168-176): validation, preview
push of the preprocessed content, approval ask carrying the original
content, then revert or save and result formatting.  JavaScript truthiness
makes an empty `relPath`/`content` a validation error (line 73) and an empty
`userEdits` string count as no edits (line 140). -/
def writeFile (relPath content : Str) (wenv : WriteEnv) : List WEvt × WResult :=
  -- line 73: `!relPath || !content` throws; the catch of lines 157-161
  -- converts it to a textual error result, with no diff session opened
  if relPath = [] ∨ content = [] then
    ([], ⟨wErrPre ++ wMissingMsg, []⟩)
  else
    match wenv.previewFault with
    | some m => ([WEvt.diffOpen relPath], ⟨wErrPre ++ m, []⟩)
    | none =>
      let tr0 := [WEvt.diffOpen relPath,
                  WEvt.diffUpdate (preprocessContent content) true,
                  WEvt.askPending content relPath]
      if wenv.response = AskResponse.yesButtonTapped then
        match wenv.saveFault with
        | some m => (tr0 ++ [WEvt.diffSave], ⟨wErrPre ++ m, []⟩)
        | none =>
          let tr1 := tr0 ++ [WEvt.diffSave,
                             WEvt.update ApprovalState.approved content none]
          match wenv.userEdits with
          | some ue =>
            if ue = [] then (tr1, ⟨savedText relPath, []⟩)
            else
              (tr1 ++ [WEvt.sayDiff
                        (if wenv.fileExists then editedExistingFile else newFileCreated)
                        relPath ue],
               ⟨userEditsText ue relPath, []⟩)
          | none => (tr1, ⟨savedText relPath, []⟩)
      else
        let tr1 := tr0 ++ [WEvt.diffRevert,
                           WEvt.update ApprovalState.rejected content wenv.text]
        if wenv.response = AskResponse.noButtonTapped then
          (tr1, ⟨wCancelMsg, []⟩)
        else
          (tr1 ++ [WEvt.sayUserFeedback (wenv.text.getD deniedDefaultMsg) wenv.images],
           ⟨wenv.text.getD wCancelMsg, wenv.images⟩)

/-- The sequence of `approvalState` values broadcast through `updateAsk` by
the file write engine. -/
def updateStatesW (tr : List WEvt) : List ApprovalState :=
  tr.filterMap fun e =>
    match e with
    | WEvt.update s _ _ => some s
    | _ => none

/-- Approved file write with no user edits; the target file does not exist. -/
def wenvApproved : WriteEnv :=
  { response := AskResponse.yesButtonTapped
    text := none
    images := []
    fileExists := false
    userEdits := none
    previewFault := none
    saveFault := none }

/-- Approved file write where the operator hand-edited the proposed content
of an existing file before accepting. -/
def wenvEdits : WriteEnv :=
  { wenvApproved with
    fileExists := true
    userEdits := some ("-old line\n+new line".data) }

/-- File write rejected with the operator feedback text `"wrong approach"`. -/
def wenvRejected : WriteEnv :=
  { wenvApproved with
    response := AskResponse.messageResponse
    text := some ("wrong approach".data) }

/-! ### Lemmas about the file-write result texts -/

theorem hasSub_userEdits (ue relPath : Str) :
    hasSub ue (userEditsText ue relPath) = true := by
  have he : userEditsText ue relPath =
      "The user made the following updates to your content:\n\n".data ++
        (ue ++ ("\n\nThe updated content has been successfully saved to ".data ++
          (toPosix relPath ++
            ". (Note: you don\x27t need to re-write the file with these changes.)".data))) := by
    simp [userEditsText, List.append_assoc]
  rw [he]
  exact hasSub_append _ _ _

theorem hasSub_no_rewrite (ue relPath : Str) :
    hasSub ("you don\x27t need to re-write the file".data)
      (userEditsText ue relPath) = true := by
  have he : userEditsText ue relPath =
      ("The user made the following updates to your content:\n\n".data ++
        (ue ++ ("\n\nThe updated content has been successfully saved to ".data ++
          (toPosix relPath ++ ". (Note: ".data)))) ++
        ("you don\x27t need to re-write the file".data ++
          " with these changes.)".data) := by
    simp [userEditsText, List.append_assoc]
  rw [he]
  exact hasSub_append _ _ _

theorem hasSub_no_reread (relPath : Str) :
    hasSub ("Do not read the file again".data) (savedText relPath) = true := by
  have he : savedText relPath =
      ("The content was successfully saved to ".data ++ (toPosix relPath ++ ". ".data)) ++
        ("Do not read the file again".data ++ " unless you forgot the content.".data) := by
    simp [savedText, List.append_assoc]
  rw [he]
  exact hasSub_append _ _ _

/-! ### Claims C6, C9, C10 about the file write engine -/

/-- C6 (confirmed): on any non-`yesButtonTapped` response, the Diff Session
is reverted and never saved, a rejected broadcast carrying the operator
feedback is sent before returning, a `noButtonTapped` response yields the
fixed cancellation phrase, and any other non-accept response yields the
operator text (or that phrase when no text was supplied) plus images. -/
theorem writeFile_rejected_revert (relPath content : Str) (wenv : WriteEnv)
    (h0 : relPath ≠ []) (h1 : content ≠ []) (h2 : wenv.previewFault = none)
    (h3 : wenv.response ≠ AskResponse.yesButtonTapped) :
    WEvt.diffRevert ∈ (writeFile relPath content wenv).1 ∧
    WEvt.diffSave ∉ (writeFile relPath content wenv).1 ∧
    WEvt.update ApprovalState.rejected content wenv.text ∈
      (writeFile relPath content wenv).1 ∧
    (wenv.response = AskResponse.noButtonTapped →
      (writeFile relPath content wenv).2 = ⟨wCancelMsg, []⟩) ∧
    (wenv.response = AskResponse.messageResponse →
      (writeFile relPath content wenv).2 = ⟨wenv.text.getD wCancelMsg, wenv.images⟩) := by
  by_cases hn : wenv.response = AskResponse.noButtonTapped
  · simp [writeFile, h0, h1, h2, h3, hn]
  · have hm : wenv.response = AskResponse.messageResponse := by
      cases hr : wenv.response
      · exact absurd hr h3
      · exact absurd hr hn
      · rfl
    simp [writeFile, h0, h1, h2, h3, hm]

/-- Witness for C6 at the spec scenario: a write to `"a.txt"` rejected with
the operator feedback text `"wrong approach"`. -/
theorem writeFile_rejected_revert_witness :
    ("a.txt".data : Str) ≠ [] ∧
    ("x = 1".data : Str) ≠ [] ∧
    wenvRejected.previewFault = none ∧
    wenvRejected.response ≠ AskResponse.yesButtonTapped ∧
    (WEvt.diffRevert ∈ (writeFile ("a.txt".data) ("x = 1".data) wenvRejected).1 ∧
     WEvt.diffSave ∉ (writeFile ("a.txt".data) ("x = 1".data) wenvRejected).1 ∧
     WEvt.update ApprovalState.rejected ("x = 1".data) wenvRejected.text ∈
       (writeFile ("a.txt".data) ("x = 1".data) wenvRejected).1 ∧
     (wenvRejected.response = AskResponse.noButtonTapped →
       (writeFile ("a.txt".data) ("x = 1".data) wenvRejected).2 = ⟨wCancelMsg, []⟩) ∧
     (wenvRejected.response = AskResponse.messageResponse →
       (writeFile ("a.txt".data) ("x = 1".data) wenvRejected).2 =
         ⟨wenvRejected.text.getD wCancelMsg, wenvRejected.images⟩)) :=
  ⟨by decide, by decide, rfl, by decide,
    writeFile_rejected_revert ("a.txt".data) ("x = 1".data) wenvRejected
      (by decide) (by decide) rfl (by decide)⟩

/-- C9 (confirmed): for an approved write, when `saveChanges` reports
non-empty user edits the result quotes the edits verbatim and instructs the
caller not to re-write the file, and a structured notification distinguishes
an edited existing file from a newly created one; when no edits are
reported the result states the content was saved and instructs the caller
not to read the file again. -/
theorem writeFile_userEdits_result (relPath content : Str) (wenv : WriteEnv)
    (h0 : relPath ≠ []) (h1 : content ≠ []) (h2 : wenv.previewFault = none)
    (h3 : wenv.response = AskResponse.yesButtonTapped) (h4 : wenv.saveFault = none) :
    (∀ ue, wenv.userEdits = some ue → ue ≠ [] →
      (writeFile relPath content wenv).2 = ⟨userEditsText ue relPath, []⟩ ∧
      hasSub ue (userEditsText ue relPath) = true ∧
      hasSub ("you don\x27t need to re-write the file".data)
        (userEditsText ue relPath) = true ∧
      WEvt.sayDiff (if wenv.fileExists then editedExistingFile else newFileCreated)
        relPath ue ∈ (writeFile relPath content wenv).1) ∧
    (wenv.userEdits = none →
      (writeFile relPath content wenv).2 = ⟨savedText relPath, []⟩ ∧
      hasSub ("Do not read the file again".data) (savedText relPath) = true) := by
  constructor
  · intro ue hue hne
    refine ⟨?_, hasSub_userEdits ue relPath, hasSub_no_rewrite ue relPath, ?_⟩
    · simp [writeFile, h0, h1, h2, h3, h4, hue, hne]
    · simp [writeFile, h0, h1, h2, h3, h4, hue, hne]
  · intro hue
    refine ⟨?_, hasSub_no_reread relPath⟩
    simp [writeFile, h0, h1, h2, h3, h4, hue]

/-- Witness for C9 at an approved write over an existing file with the hand
edits `"-old line\n+new line"`. -/
theorem writeFile_userEdits_result_witness :
    ("a.txt".data : Str) ≠ [] ∧
    ("x = 1".data : Str) ≠ [] ∧
    wenvEdits.previewFault = none ∧
    wenvEdits.response = AskResponse.yesButtonTapped ∧
    wenvEdits.saveFault = none ∧
    wenvEdits.userEdits = some ("-old line\n+new line".data) ∧
    ("-old line\n+new line".data : Str) ≠ [] ∧
    ((writeFile ("a.txt".data) ("x = 1".data) wenvEdits).2 =
       ⟨userEditsText ("-old line\n+new line".data) ("a.txt".data), []⟩ ∧
     hasSub ("-old line\n+new line".data)
       (userEditsText ("-old line\n+new line".data) ("a.txt".data)) = true ∧
     hasSub ("you don\x27t need to re-write the file".data)
       (userEditsText ("-old line\n+new line".data) ("a.txt".data)) = true ∧
     WEvt.sayDiff (if wenvEdits.fileExists then editedExistingFile else newFileCreated)
       ("a.txt".data) ("-old line\n+new line".data) ∈
       (writeFile ("a.txt".data) ("x = 1".data) wenvEdits).1) :=
  ⟨by decide, by decide, rfl, rfl, rfl, rfl, by decide,
    (writeFile_userEdits_result ("a.txt".data) ("x = 1".data) wenvEdits
      (by decide) (by decide) rfl rfl rfl).1
      ("-old line\n+new line".data) rfl (by decide)⟩

/-- C10 (confirmed): the approval ask and every `updateAsk` broadcast carry
the caller's original content, while the content pushed to the Diff Session
is the preprocessed content; whenever preprocessing is not the identity on
the input, the content committed through the diff surface differs from every
content payload shown on the approval channel. -/
theorem writeFile_ask_raw_diff_preprocessed (relPath content : Str) (wenv : WriteEnv)
    (h0 : relPath ≠ []) (h1 : content ≠ []) (h2 : wenv.previewFault = none) :
    (WEvt.askPending content relPath ∈ (writeFile relPath content wenv).1 ∧
     WEvt.diffUpdate (preprocessContent content) true ∈ (writeFile relPath content wenv).1 ∧
     (∀ c b, WEvt.diffUpdate c b ∈ (writeFile relPath content wenv).1 →
        c = preprocessContent content) ∧
     (∀ s c fb, WEvt.update s c fb ∈ (writeFile relPath content wenv).1 →
        c = content)) ∧
    (preprocessContent content ≠ content →
      ∀ c b, WEvt.diffUpdate c b ∈ (writeFile relPath content wenv).1 →
        c ≠ content) := by
  have main : WEvt.askPending content relPath ∈ (writeFile relPath content wenv).1 ∧
      WEvt.diffUpdate (preprocessContent content) true ∈
        (writeFile relPath content wenv).1 ∧
      (∀ c b, WEvt.diffUpdate c b ∈ (writeFile relPath content wenv).1 →
        c = preprocessContent content) ∧
      (∀ s c fb, WEvt.update s c fb ∈ (writeFile relPath content wenv).1 →
        c = content) := by
    by_cases hy : wenv.response = AskResponse.yesButtonTapped
    · cases hs : wenv.saveFault with
      | some m => simp [writeFile, h0, h1, h2, hy, hs]
      | none =>
        cases hu : wenv.userEdits with
        | none =>
          simp [writeFile, h0, h1, h2, hy, hs, hu]
          intro s c fb _ hc _
          exact hc
        | some ue =>
          by_cases hue : ue = []
          · simp [writeFile, h0, h1, h2, hy, hs, hu, hue]
            intro s c fb _ hc _
            exact hc
          · simp [writeFile, h0, h1, h2, hy, hs, hu, hue]
            intro s c fb _ hc _
            exact hc
    · by_cases hn : wenv.response = AskResponse.noButtonTapped
      · simp [writeFile, h0, h1, h2, hy, hn]
        intro s c fb _ hc _
        exact hc
      · simp [writeFile, h0, h1, h2, hy, hn]
        intro s c fb _ hc _
        exact hc
  refine ⟨main, ?_⟩
  intro hne c b hmem
  rw [main.2.2.1 c b hmem]
  exact hne

/-- Witness for C10 at a fenced content, on which preprocessing strips the
fence and is therefore not the identity. -/
theorem writeFile_ask_raw_diff_preprocessed_witness :
    ("a.txt".data : Str) ≠ [] ∧
    ("```\nx = 1\n```".data : Str) ≠ [] ∧
    wenvApproved.previewFault = none ∧
    preprocessContent ("```\nx = 1\n```".data) ≠ "```\nx = 1\n```".data ∧
    ((WEvt.askPending ("```\nx = 1\n```".data) ("a.txt".data) ∈
        (writeFile ("a.txt".data) ("```\nx = 1\n```".data) wenvApproved).1 ∧
      WEvt.diffUpdate (preprocessContent ("```\nx = 1\n```".data)) true ∈
        (writeFile ("a.txt".data) ("```\nx = 1\n```".data) wenvApproved).1 ∧
      (∀ c b, WEvt.diffUpdate c b ∈
          (writeFile ("a.txt".data) ("```\nx = 1\n```".data) wenvApproved).1 →
        c = preprocessContent ("```\nx = 1\n```".data)) ∧
      (∀ s c fb, WEvt.update s c fb ∈
          (writeFile ("a.txt".data) ("```\nx = 1\n```".data) wenvApproved).1 →
        c = "```\nx = 1\n```".data)) ∧
     (preprocessContent ("```\nx = 1\n```".data) ≠ "```\nx = 1\n```".data →
       ∀ c b, WEvt.diffUpdate c b ∈
           (writeFile ("a.txt".data) ("```\nx = 1\n```".data) wenvApproved).1 →
         c ≠ "```\nx = 1\n```".data)) :=
  ⟨by decide, by decide, rfl, by decide,
    writeFile_ask_raw_diff_preprocessed ("a.txt".data) ("```\nx = 1\n```".data)
      wenvApproved (by decide) (by decide) rfl⟩

/-! ### Claim C1: exactly one terminal state broadcast -/

theorem one_terminal_mid (us : List ApprovalState)
    (hus : ∀ s ∈ us, s = ApprovalState.loading) (t : ApprovalState)
    (ht : isTerminal t = true) :
    ∃ s, isTerminal s = true ∧
      (ApprovalState.loading :: (us ++ [t])).getLast? = some s ∧
      ∀ s' ∈ ApprovalState.loading :: (us ++ [t]), isTerminal s' = true → s' = s := by
  refine ⟨t, ht, getLast?_cons_app _ _ _, ?_⟩
  intro s' hm hterm
  rcases List.mem_cons.mp hm with rfl | hm
  · simp [isTerminal] at hterm
  · rcases List.mem_append.mp hm with hm | hm
    · have h := hus s' hm
      subst h
      simp [isTerminal] at hterm
    · rcases List.mem_singleton.mp hm with rfl
      rfl

/-- C1 (amended): for every command invocation with a non-empty command, an
available advanced terminal manager and (when approved) a successfully
created process, and for every file-write invocation with non-empty path and
content whose diff surface does not itself fail, the final `updateAsk`
broadcast carries a terminal state in {rejected, approved, error} and every
terminal-state broadcast of the invocation carries that same single state.
(On the validation-error path and on the pre-spawn throwing paths no
broadcast is sent at all.) -/
theorem terminal_broadcast (cmd : Str) (env : CmdEnv)
    (relPath content : Str) (wenv : WriteEnv)
    (h0 : trim cmd ≠ []) (h1 : env.managerAdvanced = true)
    (h2 : env.response = AskResponse.yesButtonTapped → env.processCreated = true)
    (h3 : relPath ≠ []) (h4 : content ≠ [])
    (h5 : wenv.previewFault = none) (h6 : wenv.saveFault = none) :
    (∃ s, isTerminal s = true ∧
      (updateStates (execCommand cmd env).1).getLast? = some s ∧
      ∀ s' ∈ updateStates (execCommand cmd env).1, isTerminal s' = true → s' = s) ∧
    (∃ s, isTerminal s = true ∧
      (updateStatesW (writeFile relPath content wenv).1).getLast? = some s ∧
      ∀ s' ∈ updateStatesW (writeFile relPath content wenv).1,
        isTerminal s' = true → s' = s) := by
  constructor
  · cases hr : env.response with
    | yesButtonTapped =>
      have hpc : env.processCreated = true := h2 hr
      cases hf : env.fault with
      | none =>
        cases hres : env.returnEmptyStringOnSuccess with
        | false =>
          have ht : updateStates (execCommand cmd env).1 =
              ApprovalState.loading ::
                (updateStates (runLines [] env.lines).2 ++ [ApprovalState.approved]) := by
            simp [execCommand, execShell, h0, h1, hr, hpc, hf, hres, updateStates]
          rw [ht]
          exact one_terminal_mid _ (fun s hs => runLines_updates _ _ _ hs) _ rfl
        | true =>
          have ht : updateStates (execCommand cmd env).1 =
              ApprovalState.loading ::
                (updateStates (runLines [] env.lines).2 ++ [ApprovalState.approved]) := by
            simp [execCommand, execShell, h0, h1, hr, hpc, hf, hres, updateStates]
          rw [ht]
          exact one_terminal_mid _ (fun s hs => runLines_updates _ _ _ hs) _ rfl
      | noShellIntegration =>
        cases hres : env.returnEmptyStringOnSuccess with
        | false =>
          have ht : updateStates (execCommand cmd env).1 =
              ApprovalState.loading ::
                (updateStates (runLines [] env.lines).2 ++ [ApprovalState.approved]) := by
            simp [execCommand, execShell, h0, h1, hr, hpc, hf, hres, updateStates]
          rw [ht]
          exact one_terminal_mid _ (fun s hs => runLines_updates _ _ _ hs) _ rfl
        | true =>
          have ht : updateStates (execCommand cmd env).1 =
              ApprovalState.loading ::
                (updateStates (runLines [] env.lines).2 ++ [ApprovalState.approved]) := by
            simp [execCommand, execShell, h0, h1, hr, hpc, hf, hres, updateStates]
          rw [ht]
          exact one_terminal_mid _ (fun s hs => runLines_updates _ _ _ hs) _ rfl
      | other m =>
        have ht : updateStates (execCommand cmd env).1 =
            ApprovalState.loading ::
              (updateStates (runLines [] env.lines).2 ++ [ApprovalState.error]) := by
          simp [execCommand, execShell, h0, h1, hr, hpc, hf, updateStates]
        rw [ht]
        exact one_terminal_mid _ (fun s hs => runLines_updates _ _ _ hs) _ rfl
    | noButtonTapped =>
      have ht : updateStates (execCommand cmd env).1 = [ApprovalState.rejected] := by
        simp [execCommand, execShell, h0, h1, hr, updateStates]
      rw [ht]
      refine ⟨ApprovalState.rejected, rfl, rfl, ?_⟩
      intro s' hs' _
      simpa using hs'
    | messageResponse =>
      cases hw : env.alwaysAllowWriteOnly with
      | false =>
        have ht : updateStates (execCommand cmd env).1 =
            [ApprovalState.rejected, ApprovalState.rejected] := by
          simp [execCommand, execShell, h0, h1, hr, hw, updateStates]
        rw [ht]
        refine ⟨ApprovalState.rejected, rfl, rfl, ?_⟩
        intro s' hs' _
        rcases List.mem_cons.mp hs' with rfl | hs'
        · rfl
        · simpa using hs'
      | true =>
        have ht : updateStates (execCommand cmd env).1 = [ApprovalState.rejected] := by
          simp [execCommand, execShell, h0, h1, hr, hw, updateStates]
        rw [ht]
        refine ⟨ApprovalState.rejected, rfl, rfl, ?_⟩
        intro s' hs' _
        simpa using hs'
  · by_cases hy : wenv.response = AskResponse.yesButtonTapped
    · have ht : updateStatesW (writeFile relPath content wenv).1 =
          [ApprovalState.approved] := by
        cases hu : wenv.userEdits with
        | none => simp [writeFile, h3, h4, h5, h6, hy, hu, updateStatesW]
        | some ue =>
          by_cases hue : ue = []
          · simp [writeFile, h3, h4, h5, h6, hy, hu, hue, updateStatesW]
          · simp [writeFile, h3, h4, h5, h6, hy, hu, hue, updateStatesW]
      rw [ht]
      refine ⟨ApprovalState.approved, rfl, rfl, ?_⟩
      intro s' hs' _
      simpa using hs'
    · have ht : updateStatesW (writeFile relPath content wenv).1 =
          [ApprovalState.rejected] := by
        by_cases hn : wenv.response = AskResponse.noButtonTapped
        · simp [writeFile, h3, h4, h5, hy, hn, updateStatesW]
        · simp [writeFile, h3, h4, h5, hy, hn, updateStatesW]
      rw [ht]
      refine ⟨ApprovalState.rejected, rfl, rfl, ?_⟩
      intro s' hs' _
      simpa using hs'

/-- C1 counterexample: on the validation-error paths — an empty command, or
an empty file content — neither engine sends any `updateAsk` broadcast at
all, so no final broadcast with a terminal state exists; the file-write
engine still returns its textual validation-error result. -/
theorem validation_no_broadcast_counterexample :
    updateStates (execCommand [] envApproved).1 = [] ∧
    updateStatesW (writeFile ("a.txt".data) [] wenvApproved).1 = [] ∧
    (writeFile ("a.txt".data) [] wenvApproved).2 = ⟨wErrPre ++ wMissingMsg, []⟩ := by
  refine ⟨by decide, by decide, by decide⟩

/-- Witness for the amended C1 at `execCommand "echo hi" envApproved` and
`writeFile "a.txt" "x = 1" wenvApproved`. -/
theorem terminal_broadcast_witness :
    trim ("echo hi".data) ≠ [] ∧
    envApproved.managerAdvanced = true ∧
    (envApproved.response = AskResponse.yesButtonTapped →
      envApproved.processCreated = true) ∧
    ("a.txt".data : Str) ≠ [] ∧
    ("x = 1".data : Str) ≠ [] ∧
    wenvApproved.previewFault = none ∧
    wenvApproved.saveFault = none ∧
    ((∃ s, isTerminal s = true ∧
        (updateStates (execCommand ("echo hi".data) envApproved).1).getLast? = some s ∧
        ∀ s' ∈ updateStates (execCommand ("echo hi".data) envApproved).1,
          isTerminal s' = true → s' = s) ∧
     (∃ s, isTerminal s = true ∧
        (updateStatesW (writeFile ("a.txt".data) ("x = 1".data) wenvApproved).1).getLast? =
          some s ∧
        ∀ s' ∈ updateStatesW (writeFile ("a.txt".data) ("x = 1".data) wenvApproved).1,
          isTerminal s' = true → s' = s)) :=
  ⟨by decide, rfl, fun _ => rfl, by decide, by decide, rfl, rfl,
    terminal_broadcast ("echo hi".data) envApproved ("a.txt".data) ("x = 1".data)
      wenvApproved (by decide) rfl (fun _ => rfl) (by decide) (by decide) rfl rfl⟩

/-! ### Claims C3 and C8 about `preprocessContent` -/

/-- C3: the claim states that `preprocessContent` unescapes the three HTML
entities `&gt;`, `&lt;`, `&quot;` into `>`, `<`, `"`.  The code's replace
calls (write-file.tool.ts line 196) substitute `>`, `<` and `"` for
themselves, so the entities are left untouched: on input `"&gt; &lt; &quot;"`
the function is the identity, and on `"&gt;"` it does not produce `">"`. -/
theorem preprocessContent_entity_unescape_noop :
    preprocessContent ("&gt; &lt; &quot;".data) = "&gt; &lt; &quot;".data ∧
    preprocessContent ("&gt;".data) ≠ ">".data := by
  refine ⟨by decide, by decide⟩

/-- C8 counterexample: `preprocessContent` is not idempotent.  On the input
consisting of two fence lines followed by `foo`, one application strips only
the first fence line (the freshly exposed second fence line is not
re-examined), so a second application strips again and yields a different
string. -/
theorem preprocessContent_not_idempotent :
    preprocessContent (preprocessContent ("```\n```\nfoo".data)) ≠
      preprocessContent ("```\n```\nfoo".data) := by decide

/-- C8 (amended): `preprocessContent` is idempotent on every input whose
preprocessed form neither starts nor ends with the fenced-code delimiter;
re-running it on such already-preprocessed content returns it unchanged. -/
theorem preprocessContent_idempotent_of_no_fence (c : Str)
    (h1 : startsFence (preprocessContent c) = false)
    (h2 : endsFence (preprocessContent c) = false) :
    preprocessContent (preprocessContent c) = preprocessContent c := by
  conv_lhs => rw [preprocessContent_eq]
  rw [trim_preprocessContent]
  unfold stripLeadFence
  rw [if_neg (by simp [h1])]
  unfold stripTrailFence
  rw [if_neg (by simp [h2])]

/-- Witness for the amended C8 at the concrete input `"hello"`. -/
theorem preprocessContent_idempotent_witness :
    startsFence (preprocessContent ("hello".data)) = false ∧
    endsFence (preprocessContent ("hello".data)) = false ∧
    preprocessContent (preprocessContent ("hello".data)) = preprocessContent ("hello".data) :=
  ⟨by decide, by decide,
    preprocessContent_idempotent_of_no_fence ("hello".data) (by decide) (by decide)⟩

end ClaudeCoder
